import Mathlib

/-!
Verification development for the Flask REST API tutorial
(`intermediate_source/flask_rest_api_tutorial.py`).

The tutorial's final `app.py` consists of:
  * a module-level load of the label table
    (`imagenet_class_index = json.load(open('imagenet_class_index.json'))`),
  * a module-level load of a pretrained model (`models.densenet121`), put in
    eval mode,
  * `transform_image`: PIL decode followed by the torchvision pipeline
    Resize(255) / CenterCrop(224) / ToTensor / Normalize(mean, std), then
    `unsqueeze(0)`,
  * `get_prediction`: `transform_image`, one `model.forward`, `outputs.max(1)`,
    `str(y_hat.item())`, dictionary lookup,
  * the `/predict` POST route: `request.files['file']`, `file.read()`,
    two-variable destructuring of the looked-up entry, `jsonify`.

Python-level behaviour (dictionary indexing with a KeyError on a missing key,
tuple destructuring with a ValueError on wrong arity, exceptions propagating
out of the handler) is embedded with `Except`.  External library behaviour
(PIL's image decoder, the interpolation kernel used while resizing, and the
pretrained network itself) is kept abstract as parameters, while the parts of
the libraries that the tutorial configures explicitly (output geometry of the
transforms, the channel check performed by `Normalize`, argmax semantics of
`Tensor.max(1)`) are embedded concretely.
-/

namespace FlaskApp

/-- JSON values, as produced by Python's `json.load`. -/
inductive Json where
  | null : Json
  | bool (b : Bool) : Json
  | num (q : ℚ) : Json
  | str (s : String) : Json
  | arr (xs : List Json) : Json
  | obj (kvs : List (String × Json)) : Json

/-- A startup file dependency: either the file is missing, or its contents are
not valid JSON, or it parses to a JSON value. -/
inductive FileSource where
  | missing : FileSource
  | invalidJson : FileSource
  | jsonValue (j : Json) : FileSource

/-- Errors raised while loading the label table at startup
(`open` raises FileNotFoundError, `json.load` raises JSONDecodeError). -/
inductive LoadError where
  | fileNotFound : LoadError
  | jsonDecodeError : LoadError
deriving DecidableEq

/-- Python exceptions that can escape the request handler. -/
inductive RequestError where
  | missingFile : RequestError    -- KeyError from request.files['file']
  | decodeError : RequestError    -- PIL cannot decode the bytes
  | runtimeError : RequestError   -- channel mismatch inside Normalize
  | inferenceError : RequestError -- model.forward rejects the input shape
  | unknownIndex : RequestError   -- KeyError from imagenet_class_index[idx]
  | valueError : RequestError     -- destructuring a non-pair entry
  | typeError : RequestError      -- indexing / unpacking a non-container
deriving DecidableEq

/-- `imagenet_class_index = json.load(open('imagenet_class_index.json'))`:
the label-table load performs no validation beyond JSON parsing. -/
def jsonLoad : FileSource → Except LoadError Json
  | .missing => .error .fileNotFound
  | .invalidJson => .error .jsonDecodeError
  | .jsonValue j => .ok j

/-- Lookup in a Python dict built by `json.load` from an association list of
key/value pairs: a duplicated key keeps the value of its last occurrence. -/
def pyDictLookup : List (String × Json) → String → Option Json
  | [], _ => none
  | kv :: rest, k =>
    match pyDictLookup rest k with
    | some v => some v
    | none => if kv.1 = k then some kv.2 else none

/-- Keys of a Python dict built from an association list: first-occurrence
order, duplicates removed. -/
def dictKeys : List (String × Json) → List String
  | [] => []
  | kv :: rest => kv.1 :: dictKeys (rest.filter (fun kv2 => kv2.1 != kv.1))
termination_by l => l.length
decreasing_by
  simp_wf
  exact Nat.lt_succ_of_le (List.length_filter_le _ _)

/-- Python's `d[k]` on a value loaded from JSON: a KeyError on an object
without the key, a TypeError when string-indexing a non-object. -/
def dictGet (tbl : Json) (k : String) : Except RequestError Json :=
  match tbl with
  | .obj kvs =>
    match pyDictLookup kvs k with
    | some v => .ok v
    | none => .error .unknownIndex
  | _ => .error .typeError

/-- The spec's label-table lookup `resolve(index)`: in the code this is
`imagenet_class_index[str(y_hat.item())]`. -/
def resolve (tbl : Json) (idx : Nat) : Except RequestError Json :=
  dictGet tbl (toString idx)

/-- Python's two-variable destructuring `class_id, class_name = entry` on a
JSON-loaded value: succeeds on any iterable of exactly two elements
(a two-element array, a two-character string, a two-key object), raises
ValueError on an iterable of any other arity and TypeError on a
non-iterable. -/
def unpack2 : Json → Except RequestError (Json × Json)
  | .arr [a, b] => .ok (a, b)
  | .arr _ => .error .valueError
  | .str s =>
    match s.toList with
    | [a, b] => .ok (.str (String.mk [a]), .str (String.mk [b]))
    | _ => .error .valueError
  | .obj kvs =>
    match dictKeys kvs with
    | [k1, k2] => .ok (.str k1, .str k2)
    | _ => .error .valueError
  | _ => .error .typeError

/-- The well-formedness condition the spec imposes on the label file: a JSON
object each of whose values is a two-element array of strings.  Stated from
the spec's words, to be compared with what `jsonLoad` actually checks. -/
def specTableOk : Json → Bool
  | .obj kvs =>
    kvs.all (fun kv =>
      match kv.2 with
      | .arr [.str _, .str _] => true
      | _ => false)
  | _ => false

/-- A label-table file whose value at key "0" is a three-element array. -/
def badTable : Json :=
  .obj [("0", .arr [.str "n02124075", .str "Egyptian_cat", .str "extra"])]

/-! ## The image pipeline (`transform_image`) -/

/-- A decoded PIL image: a number of bands (3 for RGB, 1 for grayscale, 4 for
RGBA/CMYK), a height, a width, and byte-valued pixels indexed by
(band, row, column). -/
structure PilImage where
  bands : Nat
  height : Nat
  width : Nat
  pix : Nat → Nat → Nat → Nat

instance : Inhabited PilImage := ⟨⟨0, 0, 0, fun _ _ _ => 0⟩⟩

/-- A rank-3 tensor (channels, height, width) of exact numeric values. -/
structure Tensor3 where
  channels : Nat
  height : Nat
  width : Nat
  val : Nat → Nat → Nat → ℚ

/-- A rank-4 tensor (batch, channels, height, width). -/
structure Tensor4 where
  batch : Nat
  channels : Nat
  height : Nat
  width : Nat
  val : Nat → Nat → Nat → Nat → ℚ

instance : Inhabited Tensor4 := ⟨⟨0, 0, 0, 0, fun _ _ _ _ => 0⟩⟩

/-- The shape of a rank-4 tensor. -/
def Tensor4.dims (t : Tensor4) : Nat × Nat × Nat × Nat :=
  (t.batch, t.channels, t.height, t.width)

/-- Behaviour of the external imaging library that the tutorial does not
itself determine: `PIL.Image.open` (`decode`, `none` on bytes that are not a
decodable image) and the interpolation kernel used by `Resize`
(`resample img oh ow` gives the pixels of `img` rescaled to height `oh` and
width `ow`). -/
structure PILEnv where
  decode : List Nat → Option PilImage
  resample : PilImage → Nat → Nat → (Nat → Nat → Nat → Nat)

/-- `transforms.Resize(size)` with an integer size: the shorter edge is
scaled to `size`, the longer edge by the same factor (truncated), and an
image whose shorter edge already equals `size` is returned unchanged. -/
def pilResize (env : PILEnv) (size : Nat) (img : PilImage) : PilImage :=
  if (img.width ≤ img.height ∧ img.width = size) ∨
     (img.height ≤ img.width ∧ img.height = size) then img
  else if img.width < img.height then
    { bands := img.bands, height := size * img.height / img.width, width := size,
      pix := env.resample img (size * img.height / img.width) size }
  else
    { bands := img.bands, height := size, width := size * img.width / img.height,
      pix := env.resample img size (size * img.width / img.height) }

/-- Python's `int(round(d / 2.0))` for an integer `d`: round half to even. -/
def pyRoundHalf (d : Int) : Int :=
  if d % 2 = 0 then d / 2
  else
    let q := Int.fdiv d 2
    if q % 2 = 0 then q else q + 1

/-- `transforms.CenterCrop((th, tw))`: crop offsets `round((h - th)/2)` and
`round((w - tw)/2)`; regions of the crop box that fall outside the source
image are filled with 0, so the output geometry is always `th × tw`. -/
def centerCrop (th tw : Nat) (img : PilImage) : PilImage :=
  { bands := img.bands, height := th, width := tw,
    pix := fun b r c =>
      let rr : Int := pyRoundHalf ((img.height : Int) - th) + r
      let cc : Int := pyRoundHalf ((img.width : Int) - tw) + c
      if 0 ≤ rr ∧ rr < (img.height : Int) ∧ 0 ≤ cc ∧ cc < (img.width : Int) then
        img.pix b rr.toNat cc.toNat
      else 0 }

/-- `transforms.ToTensor()`: one channel per band, byte values scaled into
[0, 1] by dividing by 255. -/
def toTensor (img : PilImage) : Tensor3 :=
  { channels := img.bands, height := img.height, width := img.width,
    val := fun c r k => (img.pix c r k : ℚ) / 255 }

/-- `transforms.Normalize(mean, std)`: per-channel affine normalization.
The mean/std vectors must match the channel count, otherwise the broadcast
fails with a RuntimeError. -/
def tvNormalize (mean std : List ℚ) (t : Tensor3) :
    Except RequestError Tensor3 :=
  if t.channels = mean.length ∧ t.channels = std.length then
    .ok { channels := t.channels, height := t.height, width := t.width,
          val := fun c r k => (t.val c r k - mean.getD c 0) / std.getD c 0 }
  else .error .runtimeError

/-- `Tensor.unsqueeze(0)`: insert a leading batch dimension of size 1. -/
def unsqueeze0 (t : Tensor3) : Tensor4 :=
  { batch := 1, channels := t.channels, height := t.height, width := t.width,
    val := fun _ c r k => t.val c r k }

/-- The normalization mean used by the tutorial. -/
def nMean : List ℚ := [0.485, 0.456, 0.406]

/-- The normalization standard deviation used by the tutorial. -/
def nStd : List ℚ := [0.229, 0.224, 0.225]

/-- `transform_image(image_bytes)`: decode the bytes with PIL, then apply
Resize(255), CenterCrop(224), ToTensor, Normalize(mean, std), and
`unsqueeze(0)`. -/
def transform_image (env : PILEnv) (image_bytes : List Nat) :
    Except RequestError Tensor4 :=
  match env.decode image_bytes with
  | none => .error .decodeError
  | some image =>
    match tvNormalize nMean nStd (toTensor (centerCrop 224 224 (pilResize env 255 image))) with
    | .error e => .error e
    | .ok t => .ok (unsqueeze0 t)

/-! ## The classifier (`model.forward` and `outputs.max(1)`) -/

/-- The pretrained network, abstract except for its interface: `accepts`
tells which input shapes the forward pass admits (anything else raises),
and `scores` gives the class-score row it produces for the single batch
element. -/
structure TorchModel where
  accepts : Nat × Nat × Nat × Nat → Bool
  scores : Tensor4 → List ℚ

/-- `model.forward(tensor)`: one forward pass; raises on an input shape the
network does not accept. -/
def TorchModel.forwardFn (m : TorchModel) (t : Tensor4) :
    Except RequestError (List ℚ) :=
  if m.accepts t.dims then .ok (m.scores t) else .error .inferenceError

/-- Scan of `Tensor.max(1)` over the class-score row: keeps the running
maximum and its index, replacing it only on a strictly larger value, so
ties keep the first (lowest) index. -/
def argmaxAux (i : Nat) (bi : Nat) (bv : ℚ) : List ℚ → Nat
  | [] => bi
  | x :: xs => if bv < x then argmaxAux (i + 1) i x xs else argmaxAux (i + 1) bi bv xs

/-- `outputs.max(1)` restricted to the index part (`y_hat`), on the score row
of the single batch element; empty rows have no maximum. -/
def torchArgmax : List ℚ → Option Nat
  | [] => none
  | x :: xs => some (argmaxAux 1 0 x xs)

/-- The spec's `Classifier Wrapper.predict`: in the code, the two lines
`outputs = model.forward(tensor)` and `_, y_hat = outputs.max(1)` followed by
`y_hat.item()`. -/
def classifierPredict (m : TorchModel) (t : Tensor4) :
    Except RequestError Nat :=
  match m.forwardFn t with
  | .error e => .error e
  | .ok outputs =>
    match torchArgmax outputs with
    | none => .error .runtimeError
    | some y_hat => .ok y_hat

/-! ## The request handler and the server -/

/-- The process-wide singletons the module body creates before `app.run()`:
the label table and the loaded model. -/
structure ServerState where
  table : Json
  model : TorchModel

/-- Which of the three pipeline components a request execution invoked, in
order of invocation. -/
inductive Step where
  | transformStep : Step
  | forwardStep : Step
  | resolveStep : Step
deriving DecidableEq

/-- `get_prediction(image_bytes)` (the final version in the file):
`transform_image`, then the forward pass and `outputs.max(1)`, then
`imagenet_class_index[str(y_hat.item())]`.  The second component records
which components ran, in order. -/
def get_prediction (env : PILEnv) (st : ServerState) (image_bytes : List Nat) :
    Except RequestError Json × List Step :=
  match transform_image env image_bytes with
  | .error e => (.error e, [.transformStep])
  | .ok tensor =>
    match classifierPredict st.model tensor with
    | .error e => (.error e, [.transformStep, .forwardStep])
    | .ok y_hat =>
      (dictGet st.table (toString y_hat),
       [.transformStep, .forwardStep, .resolveStep])

/-- An inbound HTTP request: a method and the multipart file fields
(name, raw bytes). -/
structure HttpRequest where
  method : String
  files : List (String × List Nat)

/-- `request.files['file']`: the first file field with the given name. -/
def filesGet (files : List (String × List Nat)) (k : String) :
    Option (List Nat) :=
  match files with
  | [] => none
  | kv :: rest => if kv.1 = k then some kv.2 else filesGet rest k

/-- An HTTP response: status code and JSON body. -/
structure HttpResponse where
  status : Nat
  body : Json

/-- The `/predict` view function: take the `file` field (KeyError when it is
absent), run `get_prediction` on its bytes, destructure the entry into
`class_id, class_name`, and `jsonify` them with status 200.  A non-POST
method makes the body return `None`, which Flask rejects with a TypeError;
the route itself only dispatches POST.  The second component is the trace of
pipeline components invoked. -/
def predict (env : PILEnv) (st : ServerState) (req : HttpRequest) :
    Except RequestError HttpResponse × List Step :=
  if req.method = "POST" then
    match filesGet req.files "file" with
    | none => (.error .missingFile, [])
    | some img_bytes =>
      match get_prediction env st img_bytes with
      | (.error e, tr) => (.error e, tr)
      | (.ok entry, tr) =>
        match unpack2 entry with
        | .error e => (.error e, tr)
        | .ok (class_id, class_name) =>
          (.ok { status := 200,
                 body := .obj [("class_id", class_id), ("class_name", class_name)] },
           tr)
  else (.error .typeError, [])

/-- One request handled against the process state.  The handler only reads
the two singletons (`imagenet_class_index`, `model`); it performs no
assignment to them, so the state after the request is the state before. -/
def handleRequest (env : PILEnv) (st : ServerState) (req : HttpRequest) :
    Except RequestError HttpResponse × ServerState :=
  ((predict env st req).1, st)

/-- The serving loop: handle each request in order, threading the process
state, returning every response and the final state. -/
def serve (env : PILEnv) (st : ServerState) :
    List HttpRequest → List (Except RequestError HttpResponse) × ServerState
  | [] => ([], st)
  | req :: reqs =>
    let out := handleRequest env st req
    let rest := serve env out.2 reqs
    (out.1 :: rest.1, rest.2)

/-- Startup errors: the label-table load failing, or the pretrained model
being unavailable. -/
inductive StartupError where
  | tableError (e : LoadError) : StartupError
  | modelError : StartupError
deriving DecidableEq

/-- The module body executed before `app.run()`: load the label table
(line `imagenet_class_index = json.load(...)`), then load the model
(`models.densenet121(pretrained=True)`); an exception in either aborts the
process before any request is served. -/
def startup (labelFile : FileSource) (modelSrc : Option TorchModel) :
    Except StartupError ServerState :=
  match jsonLoad labelFile with
  | .error e => .error (.tableError e)
  | .ok tbl =>
    match modelSrc with
    | none => .error .modelError
    | some m => .ok { table := tbl, model := m }

/-- The whole process: run the module body, and only when it succeeds serve
the requests. -/
def boot (env : PILEnv) (labelFile : FileSource) (modelSrc : Option TorchModel)
    (reqs : List HttpRequest) :
    Except StartupError (List (Except RequestError HttpResponse)) :=
  match startup labelFile modelSrc with
  | .error e => .error e
  | .ok st => .ok (serve env st reqs).1

/-! ## Concrete fixtures for witnesses -/

/-- A concrete 3-band 300×400 image. -/
def cImage : PilImage := ⟨3, 300, 400, fun _ _ _ => 100⟩

/-- A concrete imaging environment: empty byte strings fail to decode,
anything else decodes to `cImage`; resampling keeps the source pixels. -/
def cEnv : PILEnv :=
  ⟨fun bs => if bs = [] then none else some cImage, fun img _ _ => img.pix⟩

/-- Concrete image bytes (a JPEG SOI marker). -/
def cBytes : List Nat := [255, 216]

/-- The tensor `transform_image` produces from `cBytes` under `cEnv`. -/
def cTensor : Tensor4 := (transform_image cEnv cBytes).toOption.getD default

/-- A concrete network accepting exactly shape (1,3,224,224) and scoring
class 1 highest (tied with class 2). -/
def cModel : TorchModel :=
  ⟨fun d => decide (d = (1, 3, 224, 224)), fun _ => [(3 : ℚ), 7, 7]⟩

/-- A concrete network accepting exactly shape (1,3,224,224) and scoring
class 0 highest. -/
def cModel0 : TorchModel :=
  ⟨fun d => decide (d = (1, 3, 224, 224)), fun _ => [(7 : ℚ), 3]⟩

/-- A well-formed one-entry label table for class 1. -/
def cTable : Json := .obj [("1", .arr [.str "n02124075", .str "Egyptian_cat"])]

/-- Server state holding `cTable` and `cModel`. -/
def cServerState : ServerState := ⟨cTable, cModel⟩

/-- Server state holding the malformed `badTable` and `cModel0` (which
predicts index 0, the malformed key). -/
def cBadState : ServerState := ⟨badTable, cModel0⟩

/-- A POST request carrying `cBytes` in its `file` field. -/
def cReq : HttpRequest := ⟨"POST", [("file", cBytes)]⟩

/-- A POST request with a file field named `data` but none named `file`. -/
def cNoFileReq : HttpRequest := ⟨"POST", [("data", cBytes)]⟩

/-! ## Theorems -/

theorem pyDictLookup_eq_none_iff (kvs : List (String × Json)) (k : String) :
    pyDictLookup kvs k = none ↔ k ∉ kvs.map Prod.fst := by
  induction kvs with
  | nil => simp [pyDictLookup]
  | cons kv rest ih =>
    by_cases hk : kv.1 = k <;>
      cases h : pyDictLookup rest k <;>
        simp_all [pyDictLookup, eq_comm]

/-- C2 counterexample: the claim says the load fails when any value of the
table is not a two-element string array, but `json.load` performs no such
validation: `badTable` (whose value at key "0" has three elements) loads
successfully even though it violates the spec's well-formedness condition. -/
theorem c2_load_no_validation :
    jsonLoad (.jsonValue badTable) = .ok badTable ∧ specTableOk badTable = false :=
  ⟨rfl, rfl⟩

/-- C2 (amended): loading the label table fails exactly when the source file
is missing or is not valid JSON; a source that parses to any JSON value at
all — including one whose values are not two-element string arrays — loads
successfully, with no shape validation at load time. -/
theorem c2_jsonLoad_error_iff (src : FileSource) :
    ((∃ e, jsonLoad src = .error e) ↔ (src = .missing ∨ src = .invalidJson)) ∧
    (∀ j, src = .jsonValue j → jsonLoad src = .ok j) := by
  cases src <;> simp [jsonLoad]

theorem c2_jsonLoad_error_iff_witness :
    ((∃ e, jsonLoad (.jsonValue badTable) = .error e) ↔
      (FileSource.jsonValue badTable = .missing ∨
       FileSource.jsonValue badTable = .invalidJson)) ∧
    jsonLoad (.jsonValue badTable) = .ok badTable :=
  ⟨(c2_jsonLoad_error_iff (.jsonValue badTable)).1,
   (c2_jsonLoad_error_iff (.jsonValue badTable)).2 badTable rfl⟩

/-- C4: on a loaded table (a JSON object), resolving an integer index
returns exactly the value the dictionary stores at the stringified index,
and raises the KeyError (`UnknownIndexError`) exactly when the stringified
index is not among the keys. -/
theorem c4_resolve_spec (kvs : List (String × Json)) (idx : Nat) :
    (toString idx ∈ kvs.map Prod.fst →
       ∃ v, resolve (.obj kvs) idx = .ok v ∧
         pyDictLookup kvs (toString idx) = some v) ∧
    (toString idx ∉ kvs.map Prod.fst →
       resolve (.obj kvs) idx = .error .unknownIndex) := by
  constructor
  · intro hmem
    cases h : pyDictLookup kvs (toString idx) with
    | none => exact absurd hmem ((pyDictLookup_eq_none_iff _ _).1 h)
    | some v => exact ⟨v, by simp [resolve, dictGet, h], rfl⟩
  · intro hmem
    have h := (pyDictLookup_eq_none_iff kvs (toString idx)).2 hmem
    simp [resolve, dictGet, h]

theorem c4_resolve_spec_witness :
    resolve (.obj [("3", Json.str "x")]) 5 = .error .unknownIndex :=
  (c4_resolve_spec [("3", Json.str "x")] 5).2 (by decide)

@[simp]
theorem pilResize_bands (env : PILEnv) (size : Nat) (img : PilImage) :
    (pilResize env size img).bands = img.bands := by
  unfold pilResize
  split
  · rfl
  · split <;> rfl

@[simp]
theorem centerCrop_shape (th tw : Nat) (img : PilImage) :
    (centerCrop th tw img).bands = img.bands ∧
    (centerCrop th tw img).height = th ∧ (centerCrop th tw img).width = tw :=
  ⟨rfl, rfl, rfl⟩

theorem tvNormalize_ok_shape (mean std : List ℚ) (t t2 : Tensor3)
    (h : tvNormalize mean std t = .ok t2) :
    t2.channels = mean.length ∧ t2.height = t.height ∧ t2.width = t.width := by
  unfold tvNormalize at h
  split at h
  case isTrue hc =>
    cases h
    exact ⟨hc.1, rfl, rfl⟩
  case isFalse hc => cases h

/-- C1: whenever `transform_image` succeeds on some byte input, the tensor it
returns has exactly shape (1, 3, 224, 224); every other decodable input makes
the call fail (the `Except` result admits no partial output), so no
successful output of any other shape exists. -/
theorem c1_transform_shape (env : PILEnv) (image_bytes : List Nat) (t : Tensor4)
    (h : transform_image env image_bytes = .ok t) :
    t.dims = (1, 3, 224, 224) := by
  cases hd : env.decode image_bytes with
  | none => simp [transform_image, hd] at h
  | some img =>
    cases hn : tvNormalize nMean nStd
        (toTensor (centerCrop 224 224 (pilResize env 255 img))) with
    | error e => simp [transform_image, hd, hn] at h
    | ok t3 =>
      simp [transform_image, hd, hn] at h
      obtain ⟨hc, hh, hw⟩ := tvNormalize_ok_shape _ _ _ _ hn
      subst h
      simp [Tensor4.dims, unsqueeze0, hc, hh, hw, toTensor, centerCrop, nMean]

theorem c1_transform_shape_witness :
    transform_image cEnv cBytes = .ok cTensor ∧ cTensor.dims = (1, 3, 224, 224) :=
  ⟨rfl, c1_transform_shape cEnv cBytes cTensor rfl⟩
theorem argmaxAux_spec (xs : List ℚ) :
    ∀ (pre : List ℚ) (bi : Nat) (bv : ℚ),
      bi < pre.length →
      pre.getD bi 0 = bv →
      (∀ j, j < pre.length → pre.getD j 0 ≤ bv) →
      (∀ j, j < bi → pre.getD j 0 < bv) →
      argmaxAux pre.length bi bv xs < (pre ++ xs).length ∧
      (∀ j, j < (pre ++ xs).length →
         (pre ++ xs).getD j 0 ≤ (pre ++ xs).getD (argmaxAux pre.length bi bv xs) 0) ∧
      (∀ j, j < argmaxAux pre.length bi bv xs →
         (pre ++ xs).getD j 0 < (pre ++ xs).getD (argmaxAux pre.length bi bv xs) 0) := by
  induction xs with
  | nil =>
    intro pre bi bv hbi hval hle hlt
    simp only [argmaxAux, List.append_nil]
    refine ⟨hbi, ?_, ?_⟩
    · intro j hj
      rw [hval]
      exact hle j hj
    · intro j hj
      rw [hval]
      exact hlt j hj
  | cons x xs ih =>
    intro pre bi bv hbi hval hle hlt
    have hpre : pre ++ x :: xs = (pre ++ [x]) ++ xs := by
      rw [List.append_assoc, List.singleton_append]
    have hlen : (pre ++ [x]).length = pre.length + 1 := by simp
    have hgetx : (pre ++ [x]).getD pre.length 0 = x := by
      rw [List.getD_append_right pre [x] 0 pre.length (le_refl _), Nat.sub_self]
      rfl
    simp only [argmaxAux]
    rw [hpre]
    by_cases hx : bv < x
    · rw [if_pos hx]
      have hmain := ih (pre ++ [x]) pre.length x
        (by simp)
        hgetx
        (by
          intro j hj
          rw [hlen] at hj
          rcases Nat.lt_succ_iff_lt_or_eq.1 hj with hj2 | hj2
          · rw [List.getD_append pre [x] 0 j hj2]
            exact le_of_lt (lt_of_le_of_lt (hle j hj2) hx)
          · rw [hj2, hgetx])
        (by
          intro j hj
          rw [List.getD_append pre [x] 0 j hj]
          exact lt_of_le_of_lt (hle j hj) hx)
      rw [hlen] at hmain
      exact hmain
    · rw [if_neg hx]
      have hxle : x ≤ bv := not_lt.1 hx
      have hmain := ih (pre ++ [x]) bi bv
        (by rw [hlen]; exact hbi.trans (Nat.lt_succ_self _))
        (by rw [List.getD_append pre [x] 0 bi hbi]; exact hval)
        (by
          intro j hj
          rw [hlen] at hj
          rcases Nat.lt_succ_iff_lt_or_eq.1 hj with hj2 | hj2
          · rw [List.getD_append pre [x] 0 j hj2]
            exact hle j hj2
          · rw [hj2, hgetx]
            exact hxle)
        (by
          intro j hj
          rw [List.getD_append pre [x] 0 j (hj.trans hbi)]
          exact hlt j hj)
      rw [hlen] at hmain
      exact hmain

/-- C5: on an input tensor whose shape the network accepts, the classifier
stage performs the forward pass and returns the index of the maximum of the
class scores, ties broken by the first (lowest) index — every score is at
most the returned one and every score before it is strictly smaller;
moreover no execution of `get_prediction` ever records more than one
forward pass. -/
theorem c5_predict_argmax (m : TorchModel) (t : Tensor4) (x : ℚ) (xs : List ℚ)
    (hacc : m.accepts t.dims = true) (hout : m.scores t = x :: xs) :
    (∃ i, classifierPredict m t = .ok i ∧ i < (x :: xs).length ∧
       (∀ j, j < (x :: xs).length → (x :: xs).getD j 0 ≤ (x :: xs).getD i 0) ∧
       (∀ j, j < i → (x :: xs).getD j 0 < (x :: xs).getD i 0)) ∧
    (∀ (env : PILEnv) (st : ServerState) (b : List Nat),
       (get_prediction env st b).2.count Step.forwardStep ≤ 1) := by
  constructor
  · have hmain := argmaxAux_spec xs [x] 0 x Nat.zero_lt_one rfl
      (by
        intro j hj
        have hj0 : j = 0 := Nat.lt_one_iff.1 hj
        subst hj0
        exact le_refl x)
      (by
        intro j hj
        exact absurd hj (Nat.not_lt_zero j))
    simp only [List.singleton_append, List.length_singleton] at hmain
    refine ⟨argmaxAux 1 0 x xs, ?_, hmain⟩
    simp [classifierPredict, TorchModel.forwardFn, hacc, hout, torchArgmax]
  · intro env st b
    cases h1 : transform_image env b with
    | error e =>
      simp only [get_prediction, h1]
      decide
    | ok tensor =>
      cases h2 : classifierPredict st.model tensor with
      | error e =>
        simp only [get_prediction, h1, h2]
        decide
      | ok y =>
        simp only [get_prediction, h1, h2]
        decide

theorem c5_predict_argmax_witness :
    (get_prediction cEnv cServerState cBytes).2.count Step.forwardStep ≤ 1 :=
  (c5_predict_argmax cModel cTensor 3 [7, 7] rfl rfl).2 cEnv cServerState cBytes

/-- C3: for a POST request whose `file` field holds bytes `b`, the handler
runs the preprocessor, then the classifier, then the label lookup, in that
order, stopping at the first failing stage and propagating its exception;
when all stages succeed and the entry destructures, it responds 200 with a
JSON object whose fields are `class_id` and `class_name`. -/
theorem c3_handler_pipeline (env : PILEnv) (st : ServerState)
    (req : HttpRequest) (b : List Nat)
    (hm : req.method = "POST") (hf : filesGet req.files "file" = some b) :
    (∀ e, transform_image env b = .error e →
       predict env st req = (.error e, [Step.transformStep])) ∧
    (∀ t e, transform_image env b = .ok t →
       classifierPredict st.model t = .error e →
       predict env st req = (.error e, [Step.transformStep, Step.forwardStep])) ∧
    (∀ t i e, transform_image env b = .ok t →
       classifierPredict st.model t = .ok i →
       dictGet st.table (toString i) = .error e →
       predict env st req =
         (.error e, [Step.transformStep, Step.forwardStep, Step.resolveStep])) ∧
    (∀ t i v cid cname, transform_image env b = .ok t →
       classifierPredict st.model t = .ok i →
       dictGet st.table (toString i) = .ok v →
       unpack2 v = .ok (cid, cname) →
       predict env st req =
         (.ok { status := 200,
                body := .obj [("class_id", cid), ("class_name", cname)] },
          [Step.transformStep, Step.forwardStep, Step.resolveStep])) := by
  refine ⟨?_, ?_, ?_, ?_⟩
  · intro e h1
    simp only [predict, hm, if_true, hf, get_prediction, h1]
  · intro t e h1 h2
    simp only [predict, hm, if_true, hf, get_prediction, h1, h2]
  · intro t i e h1 h2 h3
    simp only [predict, hm, if_true, hf, get_prediction, h1, h2, h3]
  · intro t i v cid cname h1 h2 h3 h4
    simp only [predict, hm, if_true, hf, get_prediction, h1, h2, h3, h4]

theorem c3_handler_pipeline_witness :
    predict cEnv cServerState cReq =
      (.ok { status := 200,
             body := .obj [("class_id", .str "n02124075"),
                           ("class_name", .str "Egyptian_cat")] },
       [Step.transformStep, Step.forwardStep, Step.resolveStep]) :=
  (c3_handler_pipeline cEnv cServerState cReq cBytes rfl rfl).2.2.2
    cTensor 1 (.arr [.str "n02124075", .str "Egyptian_cat"])
    (.str "n02124075") (.str "Egyptian_cat") rfl rfl rfl rfl

/-- C6: a POST request whose multipart body has no field named `file` makes
the handler raise the KeyError (`MissingFileError`); the fault leaves the
handler as an error and the handler never returns a 200 response with a
fabricated prediction. -/
theorem c6_missing_file (env : PILEnv) (st : ServerState) (req : HttpRequest)
    (hm : req.method = "POST") (hf : filesGet req.files "file" = none) :
    (predict env st req).1 = .error .missingFile ∧
    ∀ r, (predict env st req).1 ≠ .ok r := by
  have h : predict env st req = (.error .missingFile, []) := by
    simp only [predict, hm, if_true, hf]
  rw [h]
  exact ⟨rfl, fun r hc => Except.noConfusion hc⟩

theorem c6_missing_file_witness :
    (predict cEnv cServerState cNoFileReq).1 = .error .missingFile :=
  (c6_missing_file cEnv cServerState cNoFileReq rfl rfl).1

/-- C7: the pipeline is deterministic end to end — equal byte inputs give
equal transform results, equal tensors give equal predicted indices under a
fixed model, and serving the exact same request N times yields the same
response all N times. -/
theorem c7_deterministic (env : PILEnv) (st : ServerState) :
    (∀ b1 b2 : List Nat, b1 = b2 →
       transform_image env b1 = transform_image env b2) ∧
    (∀ t1 t2 : Tensor4, t1 = t2 →
       classifierPredict st.model t1 = classifierPredict st.model t2) ∧
    (∀ (req : HttpRequest) (n : Nat),
       (serve env st (List.replicate n req)).1 =
         List.replicate n (predict env st req).1) := by
  refine ⟨fun b1 b2 h => h ▸ rfl, fun t1 t2 h => h ▸ rfl, fun req n => ?_⟩
  induction n with
  | zero => rfl
  | succ n ih =>
    simp only [List.replicate_succ, serve, handleRequest, ih]

theorem c7_deterministic_witness :
    transform_image cEnv cBytes = transform_image cEnv cBytes ∧
    (serve cEnv cServerState (List.replicate 3 cReq)).1 =
      List.replicate 3 (predict cEnv cServerState cReq).1 :=
  ⟨(c7_deterministic cEnv cServerState).1 cBytes cBytes rfl,
   (c7_deterministic cEnv cServerState).2.2 cReq 3⟩

/-- C8: the label table and the loaded model are never mutated by request
handling — after serving any sequence of requests (successes and failures
alike) the process state equals the initial state, and every response is the
one computed against that initial state, so a failed request never affects a
later one. -/
theorem c8_state_immutable (env : PILEnv) (st : ServerState)
    (reqs : List HttpRequest) :
    (serve env st reqs).2 = st ∧
    (serve env st reqs).1 = reqs.map (fun req => (predict env st req).1) := by
  induction reqs with
  | nil => exact ⟨rfl, rfl⟩
  | cons req reqs ih =>
    simp only [serve, handleRequest, List.map_cons]
    exact ⟨ih.1, by rw [ih.2]⟩

/-- C9: the module body runs both loads before `app.run()`: if the label
table is missing or malformed, or the model is unavailable, the process
aborts with that startup error and serves no request at all; and any running
server state necessarily holds the successfully loaded table and model. -/
theorem c9_startup_fatal (env : PILEnv) (labelFile : FileSource)
    (modelSrc : Option TorchModel) (reqs : List HttpRequest) :
    (∀ e, jsonLoad labelFile = .error e →
       boot env labelFile modelSrc reqs = .error (.tableError e)) ∧
    (∀ j, modelSrc = none → jsonLoad labelFile = .ok j →
       boot env labelFile modelSrc reqs = .error .modelError) ∧
    (∀ st, startup labelFile modelSrc = .ok st →
       jsonLoad labelFile = .ok st.table ∧ modelSrc = some st.model) := by
  refine ⟨?_, ?_, ?_⟩
  · intro e he
    simp only [boot, startup, he]
  · intro j hms hj
    simp only [boot, startup, hj, hms]
  · intro st hst
    unfold startup at hst
    cases hjl : jsonLoad labelFile with
    | error e => rw [hjl] at hst; cases hst
    | ok tbl =>
      rw [hjl] at hst
      cases modelSrc with
      | none => cases hst
      | some m =>
        cases hst
        exact ⟨rfl, rfl⟩

theorem c9_startup_fatal_witness :
    boot cEnv .missing (some cModel) [cReq] =
      .error (.tableError .fileNotFound) ∧
    (jsonLoad (.jsonValue cTable) = .ok cServerState.table ∧
     some cModel = some cServerState.model) :=
  ⟨(c9_startup_fatal cEnv .missing (some cModel) [cReq]).1 .fileNotFound rfl,
   (c9_startup_fatal cEnv (.jsonValue cTable) (some cModel) [cReq]).2.2
     cServerState rfl⟩

theorem unpack2_arr_ne_two (xs : List Json) (h : xs.length ≠ 2) :
    unpack2 (.arr xs) = .error .valueError := by
  match xs with
  | [] => rfl
  | [a] => rfl
  | [a, b] => exact absurd rfl h
  | a :: b :: c :: rest => rfl

/-- C10: the load performs no shape validation, so startup succeeds on any
JSON-object table; on a request whose predicted index resolves to an array
entry, the handler returns a response exactly when the entry has two
elements — an entry of any other length makes the two-variable destructuring
raise a ValueError at request-handling time, not at startup. -/
theorem c10_deferred_validation (env : PILEnv) (m : TorchModel)
    (kvs : List (String × Json)) (st : ServerState) (req : HttpRequest)
    (b : List Nat) (t : Tensor4) (i : Nat) (xs : List Json)
    (hm : req.method = "POST") (hf : filesGet req.files "file" = some b)
    (ht : transform_image env b = .ok t)
    (hc : classifierPredict st.model t = .ok i)
    (hv : dictGet st.table (toString i) = .ok (.arr xs)) :
    startup (.jsonValue (.obj kvs)) (some m) = .ok ⟨.obj kvs, m⟩ ∧
    (xs.length ≠ 2 → (predict env st req).1 = .error .valueError) ∧
    (∀ a1 a2, xs = [a1, a2] →
       (predict env st req).1 =
         .ok { status := 200,
               body := .obj [("class_id", a1), ("class_name", a2)] }) := by
  refine ⟨rfl, ?_, ?_⟩
  · intro hlen
    simp only [predict, hm, if_true, hf, get_prediction, ht, hc, hv,
      unpack2_arr_ne_two xs hlen]
  · intro a1 a2 hxs
    subst hxs
    simp only [predict, hm, if_true, hf, get_prediction, ht, hc, hv, unpack2]

theorem c10_deferred_validation_witness :
    (predict cEnv cBadState cReq).1 = .error .valueError :=
  ((c10_deferred_validation cEnv cModel0 [] cBadState cReq cBytes cTensor 0
      [.str "n02124075", .str "Egyptian_cat", .str "extra"]
      rfl rfl rfl rfl rfl).2.1) (by decide)

end FlaskApp
